import Mathlib

/-!
Shallow embedding of src/solution.py: a students/rooms join pipeline.
A loader reads two datasets (students and rooms) from JSON or XML, the
combiner groups students by room identifier and attaches each group to its
room, and a serializer renders the combined room list as JSON or XML text.

Python values that the JSON layer handles dynamically are embedded as the
inductive type PyVal; Python exceptions are embedded as the error side of
Except with the PyErr type naming the exception class that the interpreter
would raise.
-/

/-- Mirrors the Python dataclass Student (src/solution.py lines 9-13):
fields id, name, room_id in declaration order. -/
structure Student where
  id : Int
  name : String
  room_id : Int
deriving Repr, DecidableEq

/-- Mirrors the Python dataclass Room (src/solution.py lines 16-20):
fields id, name, students, with students defaulting to the empty list. -/
structure Room where
  id : Int
  name : String
  students : List Student := []
deriving Repr, DecidableEq

/-- The defaultdict(list) built by the first loop of
RoomDataProcessor.combine_rooms (src/solution.py lines 144-146): a single
left-to-right pass over the students, appending each student to the bucket
of its room_id.  A key that was never appended to holds the empty bucket,
which is also what the later student_map.get(room.id, []) read returns for
a missing key. -/
def buildStudentMap (students : List Student) : Int → List Student :=
  students.foldl (fun m s k => if k = s.room_id then m k ++ [s] else m k) (fun _ => [])

/-- The join phase of RoomDataProcessor.combine_rooms (src/solution.py lines
144-151), applied to the already-loaded lists: every room of the input list,
in order, has its students field set to student_map.get(room.id, []).  The
Python code mutates the rooms in place and returns the same list; the
embedding returns the updated list. -/
def combine_rooms (students : List Student) (rooms : List Room) : List Room :=
  rooms.map (fun room => { room with students := buildStudentMap students room.id })


/-- Python values as the json module produces and consumes them: None,
booleans, integers, strings, lists and dicts (an assoc list in insertion
order; json.load resolves duplicate keys before the loader ever sees the
dict, so entries are assumed key-distinct). -/
inductive PyVal where
  | pyNone
  | pyBool (b : Bool)
  | pyInt (i : Int)
  | pyStr (s : String)
  | pyList (elems : List PyVal)
  | pyDict (entries : List (String × PyVal))
deriving Repr

/-- The Python exceptions the embedded code can raise, by class. -/
inductive PyErr where
  | keyError (key : String)
  | typeError (msg : String)
  | valueError (msg : String)
  | attributeError (msg : String)
deriving Repr, DecidableEq

/-- The Python expression v[key] for a string key: a dict lookup that raises
KeyError on a missing key; subscripting a non-dict with a string raises
TypeError. -/
def pySubscript (v : PyVal) (key : String) : Except PyErr PyVal :=
  match v with
  | .pyDict entries =>
    match entries.find? (fun kv => kv.1 == key) with
    | some kv => .ok kv.2
    | none => .error (.keyError key)
  | _ => .error (.typeError "subscript")

/-- Iterating a Python value (for x in v): lists yield their elements,
dicts their keys, strings their characters; other values raise TypeError. -/
def pyIter (v : PyVal) : Except PyErr (List PyVal) :=
  match v with
  | .pyList elems => .ok elems
  | .pyDict entries => .ok (entries.map (fun kv => .pyStr kv.1))
  | .pyStr s => .ok (s.toList.map (fun c => .pyStr (String.singleton c)))
  | _ => .error (.typeError "iteration")

/-- A Student as the constructor call in JsonDataLoader builds it: Python
dataclasses perform no runtime type check, so each field holds whatever
dynamic value the source record supplied. -/
structure DynStudent where
  id : PyVal
  name : PyVal
  room_id : PyVal
deriving Repr

/-- A Room as the constructor call in JsonDataLoader builds it: dynamic id
and name, students left at the dataclass default (the empty list). -/
structure DynRoom where
  id : PyVal
  name : PyVal
  students : List DynStudent := []
deriving Repr

/-- A Python list comprehension whose element expression may raise:
elements are produced left to right and the first exception aborts the
whole comprehension. -/
def listCompr {α β : Type} (f : α → Except PyErr β) : List α → Except PyErr (List β)
  | [] => .ok []
  | a :: rest => do
    let b ← f a
    let bs ← listCompr f rest
    pure (b :: bs)

/-- One student record of JsonDataLoader.load (src/solution.py line 56):
Student(s["id"], s["name"], s["room"]).  Subscripts are evaluated left to
right; a missing key raises KeyError; no field type is checked. -/
def jsonStudentOfRecord (s : PyVal) : Except PyErr DynStudent := do
  let i ← pySubscript s "id"
  let n ← pySubscript s "name"
  let r ← pySubscript s "room"
  pure ⟨i, n, r⟩

/-- One room record of JsonDataLoader.load (src/solution.py line 57):
Room(r["id"], r["name"]); the students field keeps its default. -/
def jsonRoomOfRecord (r : PyVal) : Except PyErr DynRoom := do
  let i ← pySubscript r "id"
  let n ← pySubscript r "name"
  pure ⟨i, n, []⟩

/-- The student half of JsonDataLoader.load, applied to the value json.load
produced for the students file. -/
def jsonLoadStudents (students_json : PyVal) : Except PyErr (List DynStudent) := do
  let records ← pyIter students_json
  listCompr jsonStudentOfRecord records

/-- The room half of JsonDataLoader.load, applied to the value json.load
produced for the rooms file. -/
def jsonLoadRooms (rooms_json : PyVal) : Except PyErr (List DynRoom) := do
  let records ← pyIter rooms_json
  listCompr jsonRoomOfRecord records

/-- JsonDataLoader.load (src/solution.py lines 45-59) after json.load has
produced the two file values: builds the student list, then the room
list. -/
def JsonDataLoader.load (students_json rooms_json : PyVal) :
    Except PyErr (List DynStudent × List DynRoom) := do
  let students ← jsonLoadStudents students_json
  let rooms ← jsonLoadRooms rooms_json
  pure (students, rooms)

/-- dataclasses.asdict on a Student: a dict with the three fields in
declaration order. -/
def Student.asdict (s : Student) : PyVal :=
  .pyDict [("id", .pyInt s.id), ("name", .pyStr s.name), ("room_id", .pyInt s.room_id)]

/-- dataclasses.asdict on a Room: a dict with the three fields in
declaration order, recursing into the student list. -/
def Room.asdict (r : Room) : PyVal :=
  .pyDict [("id", .pyInt r.id), ("name", .pyStr r.name),
    ("students", .pyList (r.students.map Student.asdict))]

/-- Lowercase hexadecimal digit, as Python formats \uXXXX escapes. -/
def hexDigit (n : Nat) : Char :=
  if n < 10 then Char.ofNat (48 + n) else Char.ofNat (87 + n)

/-- Four lowercase hexadecimal digits. -/
def hex4 (n : Nat) : String :=
  String.mk [hexDigit (n / 4096 % 16), hexDigit (n / 256 % 16),
    hexDigit (n / 16 % 16), hexDigit (n % 16)]

/-- The escaping json.dumps applies inside string literals (ensure_ascii is
left at its default): quote and backslash get a backslash escape, the
common control characters their short escapes, and every character outside
the printable ASCII range a \uXXXX escape (a surrogate pair above the basic
plane). -/
def jsonEscapeChar (c : Char) : String :=
  if c = '"' then "\\\""
  else if c = '\\' then "\\\\"
  else if c = '\n' then "\\n"
  else if c = '\t' then "\\t"
  else if c = '\r' then "\\r"
  else if c = Char.ofNat 8 then "\\b"
  else if c = Char.ofNat 12 then "\\f"
  else if c.toNat < 32 || 126 < c.toNat then
    if c.toNat < 65536 then "\\u" ++ hex4 c.toNat
    else
      "\\u" ++ hex4 (55296 + (c.toNat - 65536) / 1024)
        ++ "\\u" ++ hex4 (56320 + (c.toNat - 65536) % 1024)
  else String.singleton c

/-- A JSON string literal for s: quotes around the escaped characters. -/
def jsonQuote (s : String) : String :=
  "\"" ++ String.join (s.toList.map jsonEscapeChar) ++ "\""

/-- The indentation json.dumps(…, indent=4) emits at nesting level lvl. -/
def jsonIndent (lvl : Nat) : String :=
  String.mk (List.replicate (4 * lvl) ' ')

/-- str.join: the pieces joined by the separator. -/
def joinSep (sep : String) : List String → String
  | [] => ""
  | [x] => x
  | x :: y :: rest => x ++ sep ++ joinSep sep (y :: rest)

mutual
/-- json.dumps(v, indent=4) rendered with v sitting at nesting level lvl
(members of a level-lvl container are indented by 4*(lvl+1) spaces), with
the default separators: "," between members, ": " after a key.  Empty
containers are rendered inline. -/
def json_dumps_at (lvl : Nat) : PyVal → String
  | .pyNone => "null"
  | .pyBool b => if b then "true" else "false"
  | .pyInt i => toString i
  | .pyStr s => jsonQuote s
  | .pyList [] => "[]"
  | .pyList (e :: es) =>
      "[\n" ++ joinSep ",\n" (json_dumps_items (lvl + 1) (e :: es))
        ++ "\n" ++ jsonIndent lvl ++ "]"
  | .pyDict [] => "\x7b\x7d"
  | .pyDict (kv :: kvs) =>
      "\x7b\n" ++ joinSep ",\n" (json_dumps_entries (lvl + 1) (kv :: kvs))
        ++ "\n" ++ jsonIndent lvl ++ "\x7d"
termination_by structural v => v

/-- The rendered members of a pretty-printed JSON array, each prefixed by
its indentation. -/
def json_dumps_items (lvl : Nat) : List PyVal → List String
  | [] => []
  | v :: vs => (jsonIndent lvl ++ json_dumps_at lvl v) :: json_dumps_items lvl vs
termination_by structural vs => vs

/-- The rendered members of a pretty-printed JSON object, each prefixed by
its indentation and its quoted key. -/
def json_dumps_entries (lvl : Nat) : List (String × PyVal) → List String
  | [] => []
  | (k, v) :: kvs =>
      (jsonIndent lvl ++ jsonQuote k ++ ": " ++ json_dumps_at lvl v)
        :: json_dumps_entries lvl kvs
termination_by structural kvs => kvs
end

/-- JsonDataSerializer.serialize (src/solution.py lines 99-102):
json.dumps([asdict(room) for room in combined_rooms], indent=4). -/
def JsonDataSerializer.serialize (combined_rooms : List Room) : String :=
  json_dumps_at 0 (.pyList (combined_rooms.map Room.asdict))

/-- Digits to a natural number, most significant first. -/
def digitsToNat (cs : List Char) : Nat :=
  cs.foldl (fun n c => 10 * n + (c.toNat - 48)) 0

/-- Whitespace as str.strip and int() treat it. -/
def isPySpace (c : Char) : Bool :=
  c = ' ' || c = '\t' || c = '\n' || c = '\r' || c = '\x0b' || c = '\x0c'

/-- Both-ends whitespace strip on a character list. -/
def trimChars (cs : List Char) : List Char :=
  ((cs.dropWhile isPySpace).reverse.dropWhile isPySpace).reverse

/-- Python int() applied to a string: surrounding whitespace is stripped,
an optional sign may precede the digits, and anything else raises
ValueError.  (Underscore digit grouping, which int() also accepts, never
occurs in this pipeline and is not modelled.) -/
def pyIntOfString (s : String) : Except PyErr Int :=
  let cs := trimChars s.toList
  let sgnRest : Bool × List Char :=
    match cs with
    | '-' :: rest => (true, rest)
    | '+' :: rest => (false, rest)
    | _ => (false, cs)
  if sgnRest.2.isEmpty || !(sgnRest.2.all Char.isDigit) then
    .error (.valueError ("invalid literal for int() with base 10: " ++ s))
  else
    let n : Int := Int.ofNat (digitsToNat sgnRest.2)
    .ok (if sgnRest.1 then -n else n)

/-- An element of a parsed XML document as xml.etree.ElementTree exposes
it: a tag, the text before the first child (None when absent), and the
list of child elements.  Attributes and tail text play no role in this
program and are not modelled. -/
inductive XmlElem where
  | mk (tag : String) (text : Option String) (children : List XmlElem)

/-- The tag of an element. -/
def XmlElem.tag : XmlElem → String
  | .mk t _ _ => t

/-- The text of an element (None when the element has no text). -/
def XmlElem.text : XmlElem → Option String
  | .mk _ x _ => x

/-- The child elements of an element. -/
def XmlElem.children : XmlElem → List XmlElem
  | .mk _ _ cs => cs

/-- Element.find(t): the first direct child whose tag is t, None when no
child matches. -/
def XmlElem.find (e : XmlElem) (t : String) : Option XmlElem :=
  e.children.find? (fun c => c.tag == t)

/-- The Python expression el.find(t).text: find returns None when no child
has tag t, and accessing .text on None raises AttributeError. -/
def findText (el : XmlElem) (t : String) : Except PyErr (Option String) :=
  match el.find t with
  | none => .error (.attributeError "text")
  | some c => .ok c.text

/-- Python int(x) where x is an element's .text: None raises TypeError, a
string is parsed as by int(). -/
def pyInt_of_text : Option String → Except PyErr Int
  | none => .error (.typeError "int() argument must be a string")
  | some s => pyIntOfString s

/-- A student as the XML loader constructs it: the name field stores the
name element's text directly, so it can be None (an empty name element);
no conversion is applied to it. -/
structure XStudent where
  id : Int
  name : Option String
  room_id : Int
deriving Repr, DecidableEq

/-- A room as the XML loader constructs it; students keeps the dataclass
default. -/
structure XRoom where
  id : Int
  name : Option String
  students : List XStudent := []
deriving Repr, DecidableEq

/-- One student element of XmlDataLoader (src/solution.py lines 71-76):
Student(id=int(el.find("id").text), name=el.find("name").text,
room_id=int(el.find("room").text)), with the keyword arguments evaluated
in source order. -/
def xmlStudentOfElem (el : XmlElem) : Except PyErr XStudent := do
  let idText ← findText el "id"
  let i ← pyInt_of_text idText
  let n ← findText el "name"
  let roomText ← findText el "room"
  let r ← pyInt_of_text roomText
  pure ⟨i, n, r⟩

/-- One room element of XmlDataLoader (src/solution.py lines 86-88):
Room(id=int(el.find("id").text), name=el.find("name").text). -/
def xmlRoomOfElem (el : XmlElem) : Except PyErr XRoom := do
  let idText ← findText el "id"
  let i ← pyInt_of_text idText
  let n ← findText el "name"
  pure ⟨i, n, []⟩

/-- A source handed to ET.parse: either well-formed with a root element,
or not well-formed, in which case ET.parse raises
xml.etree.ElementTree.ParseError. -/
inductive XmlSource where
  | malformed
  | wellFormed (root : XmlElem)

/-- The inner parse_students of XmlDataLoader.load (src/solution.py lines
66-79): an ET.ParseError from ET.parse is converted to a ValueError naming
the file path; the element loop then runs over the root's children, and
its own failures (missing or non-numeric fields) propagate unconverted. -/
def parse_students (src : XmlSource) (xml_path : String) : Except PyErr (List XStudent) :=
  match src with
  | .malformed => .error (.valueError ("Error parsing XML file: " ++ xml_path))
  | .wellFormed root => listCompr xmlStudentOfElem root.children

/-- The inner parse_rooms of XmlDataLoader.load (src/solution.py lines
81-92), converting ET.ParseError the same way. -/
def parse_rooms (src : XmlSource) (xml_path : String) : Except PyErr (List XRoom) :=
  match src with
  | .malformed => .error (.valueError ("Error parsing XML file: " ++ xml_path))
  | .wellFormed root => listCompr xmlRoomOfElem root.children

/-- XmlDataLoader.load (src/solution.py lines 62-96): parse the students
file, then the rooms file. -/
def XmlDataLoader.load (students_src rooms_src : XmlSource)
    (students_path rooms_path : String) :
    Except PyErr (List XStudent × List XRoom) := do
  let students ← parse_students students_src students_path
  let rooms ← parse_rooms rooms_src rooms_path
  pure (students, rooms)

/-- The text escaping ElementTree applies to element text when writing:
ampersand, then the angle brackets. -/
def xmlEscape (s : String) : String :=
  String.join (s.toList.map (fun c =>
    if c = '&' then "&amp;" else if c = '<' then "&lt;"
    else if c = '>' then "&gt;" else String.singleton c))

/-- ET.tostring of a single attribute-free element: an element whose
serialized content is empty (no children and no non-empty text) is written
in the short form with a space before the slash, otherwise as an open tag,
the content, and a close tag. -/
def xmlElemString (tag : String) (inner : String) : String :=
  if inner = "" then "<" ++ tag ++ " />"
  else "<" ++ tag ++ ">" ++ inner ++ "</" ++ tag ++ ">"

/-- One Student element as XmlDataSerializer.serialize builds it and
ET.tostring renders it (src/solution.py lines 119-129): children id, name,
room in construction order. -/
def xmlStudentString (s : Student) : String :=
  xmlElemString "Student"
    (xmlElemString "id" (toString s.id)
      ++ xmlElemString "name" (xmlEscape s.name)
      ++ xmlElemString "room" (toString s.room_id))

/-- One Room element as XmlDataSerializer.serialize builds it
(src/solution.py lines 110-117): children id, name, Students. -/
def xmlRoomString (r : Room) : String :=
  xmlElemString "Room"
    (xmlElemString "id" (toString r.id)
      ++ xmlElemString "name" (xmlEscape r.name)
      ++ xmlElemString "Students" (String.join (r.students.map xmlStudentString)))

/-- XmlDataSerializer.serialize (src/solution.py lines 105-130):
ET.tostring(root, encoding="unicode") of the Rooms element tree built from
the combined rooms. -/
def XmlDataSerializer.serialize (combined_rooms : List Room) : String :=
  xmlElemString "Rooms" (String.join (combined_rooms.map xmlRoomString))

/-- Skip JSON whitespace. -/
def skipWs : List Char → List Char
  | c :: rest =>
    if c = ' ' || c = '\t' || c = '\n' || c = '\r' then skipWs rest else c :: rest
  | [] => []

/-- Drop an expected literal character sequence, None when absent. -/
def dropLit : List Char → List Char → Option (List Char)
  | [], cs => some cs
  | l :: ls, c :: cs => if c = l then dropLit ls cs else none
  | _ :: _, [] => none

/-- Numeric value of one hexadecimal digit. -/
def hexVal (c : Char) : Nat :=
  if c.isDigit then c.toNat - 48
  else if 97 ≤ c.toNat && c.toNat ≤ 102 then c.toNat - 87
  else c.toNat - 55

/-- Scan the remainder of a JSON string literal after the opening quote,
decoding escape sequences; returns the decoded characters and the input
after the closing quote. -/
def scanStringLit : List Char → Except PyErr (List Char × List Char)
  | [] => .error (.valueError "Unterminated string")
  | c :: rest =>
    if c = '"' then .ok ([], rest)
    else if c = '\\' then
      match rest with
      | [] => .error (.valueError "Unterminated string")
      | e :: rest2 =>
        if e = 'u' then
          match rest2 with
          | a :: b :: c2 :: d :: rest3 => do
            let (cs, rest4) ← scanStringLit rest3
            let code := 4096 * hexVal a + 256 * hexVal b + 16 * hexVal c2 + hexVal d
            pure (Char.ofNat code :: cs, rest4)
          | _ => .error (.valueError "Invalid \\uXXXX escape")
        else do
          let (cs, rest3) ← scanStringLit rest2
          let dc : Char :=
            if e = 'n' then '\n' else if e = 't' then '\t'
            else if e = 'r' then '\r' else if e = 'b' then Char.ofNat 8
            else if e = 'f' then Char.ofNat 12 else e
          pure (dc :: cs, rest3)
    else do
      let (cs, rest2) ← scanStringLit rest
      pure (c :: cs, rest2)

/-- Scan a run of decimal digits. -/
def scanDigits : List Char → List Char × List Char
  | c :: rest =>
    if c.isDigit then
      let (ds, rest2) := scanDigits rest
      (c :: ds, rest2)
    else ([], c :: rest)
  | [] => ([], [])

mutual
/-- One JSON value, by fuel-bounded recursive descent: the grammar json.load
accepts, restricted to what this program ever writes or reads (null, the
booleans, integers, strings, arrays, objects; fractions and exponents never
occur in this pipeline and are not modelled). -/
def parseJsonVal : Nat → List Char → Except PyErr (PyVal × List Char)
  | 0, _ => .error (.valueError "Recursion limit")
  | fuel + 1, cs =>
    match skipWs cs with
    | [] => .error (.valueError "Expecting value")
    | c :: rest =>
      if c = '"' then do
        let (str, rest2) ← scanStringLit rest
        pure (.pyStr (String.mk str), rest2)
      else if c = '[' then
        match skipWs rest with
        | ']' :: rest2 => pure (.pyList [], rest2)
        | rest2 => do
          let (vs, rest3) ← parseJsonItems fuel rest2
          pure (.pyList vs, rest3)
      else if c = '\x7b' then
        match skipWs rest with
        | '\x7d' :: rest2 => pure (.pyDict [], rest2)
        | rest2 => do
          let (kvs, rest3) ← parseJsonEntries fuel rest2
          pure (.pyDict kvs, rest3)
      else if c = 'n' then
        match dropLit ['u', 'l', 'l'] rest with
        | some rest2 => pure (.pyNone, rest2)
        | none => .error (.valueError "Expecting value")
      else if c = 't' then
        match dropLit ['r', 'u', 'e'] rest with
        | some rest2 => pure (.pyBool true, rest2)
        | none => .error (.valueError "Expecting value")
      else if c = 'f' then
        match dropLit ['a', 'l', 's', 'e'] rest with
        | some rest2 => pure (.pyBool false, rest2)
        | none => .error (.valueError "Expecting value")
      else if c = '-' then
        match rest with
        | d :: rest2 =>
          if d.isDigit then
            let (ds, rest3) := scanDigits rest2
            pure (.pyInt (-(Int.ofNat (digitsToNat (d :: ds)))), rest3)
          else .error (.valueError "Expecting value")
        | [] => .error (.valueError "Expecting value")
      else if c.isDigit then
        let (ds, rest2) := scanDigits rest
        pure (.pyInt (Int.ofNat (digitsToNat (c :: ds))), rest2)
      else .error (.valueError "Expecting value")

/-- The members of a JSON array after its opening bracket (the empty array
is handled by the caller). -/
def parseJsonItems : Nat → List Char → Except PyErr (List PyVal × List Char)
  | 0, _ => .error (.valueError "Recursion limit")
  | fuel + 1, cs => do
    let (v, rest) ← parseJsonVal fuel cs
    match skipWs rest with
    | ',' :: rest2 => do
      let (vs, rest3) ← parseJsonItems fuel rest2
      pure (v :: vs, rest3)
    | ']' :: rest2 => pure ([v], rest2)
    | _ => .error (.valueError "Expecting delimiter")

/-- The members of a JSON object after its opening brace (the empty object
is handled by the caller). -/
def parseJsonEntries : Nat → List Char → Except PyErr (List (String × PyVal) × List Char)
  | 0, _ => .error (.valueError "Recursion limit")
  | fuel + 1, cs =>
    match skipWs cs with
    | '"' :: rest => do
      let (key, rest2) ← scanStringLit rest
      match skipWs rest2 with
      | ':' :: rest3 => do
        let (v, rest4) ← parseJsonVal fuel rest3
        match skipWs rest4 with
        | ',' :: rest5 => do
          let (kvs, rest6) ← parseJsonEntries fuel rest5
          pure ((String.mk key, v) :: kvs, rest6)
        | '\x7d' :: rest5 => pure ([(String.mk key, v)], rest5)
        | _ => .error (.valueError "Expecting delimiter")
      | _ => .error (.valueError "Expecting colon")
    | _ => .error (.valueError "Expecting property name")
end

/-- json.load on the full text of a file: parse one value and require only
whitespace after it.  A failure models json.JSONDecodeError, a ValueError
subclass.  The fuel is generous: the descent consumes input at every
level. -/
def json_loads (s : String) : Except PyErr PyVal := do
  let (v, rest) ← parseJsonVal (4 * s.length + 16) s.toList
  match skipWs rest with
  | [] => pure v
  | _ => .error (.valueError "Extra data")

/-- Serialize a combined room list with the JSON serializer, then re-parse
the text exactly as JsonDataLoader treats a rooms file: json.load followed
by the room-record extraction. -/
def jsonRoomsRoundTrip (rooms : List Room) : Except PyErr (List DynRoom) := do
  let v ← json_loads (JsonDataSerializer.serialize rooms)
  jsonLoadRooms v
/-- Written from the spec (section 4.3, JSON variant), not from the code:
one serialized student object, with exactly the keys id, name, room_id in
that order, pretty printed at the depth it occupies in the output (its
keys indented by 16 spaces, its braces by 12). -/
def specStudentJson (s : Student) : String :=
  "            \x7b\n                \"id\": " ++ toString s.id
    ++ ",\n                \"name\": " ++ jsonQuote s.name
    ++ ",\n                \"room_id\": " ++ toString s.room_id
    ++ "\n            \x7d"

/-- Written from the spec: a room's students array, one object per attached
student in attached order, the empty array inline. -/
def specStudentsArrayJson (ss : List Student) : String :=
  if ss.isEmpty then "[]"
  else "[\n" ++ joinSep ",\n" (ss.map specStudentJson) ++ "\n        ]"

/-- Written from the spec: one serialized room object, with exactly the
keys id, name, students in that order, keys indented by 8 spaces. -/
def specRoomJson (r : Room) : String :=
  "    \x7b\n        \"id\": " ++ toString r.id
    ++ ",\n        \"name\": " ++ jsonQuote r.name
    ++ ",\n        \"students\": " ++ specStudentsArrayJson r.students
    ++ "\n    \x7d"

/-- Written from the spec: the whole JSON output, an array with one object
per room in input order, pretty printed with 4-space indentation. -/
def specJsonOutput (rooms : List Room) : String :=
  if rooms.isEmpty then "[]"
  else "[\n" ++ joinSep ",\n" (rooms.map specRoomJson) ++ "\n]"

/-- The root element with every direct child's tag rewritten by f and
everything else unchanged: the probe used to show the XML loader never
reads those tags. -/
def retagChildren (f : String → String) (root : XmlElem) : XmlElem :=
  .mk root.tag root.text
    (root.children.map (fun c => .mk (f c.tag) c.text c.children))

theorem buildStudentMap_step (students : List Student) (m : Int → List Student) (k : Int) :
    students.foldl (fun m s k => if k = s.room_id then m k ++ [s] else m k) m k
      = m k ++ students.filter (fun s => s.room_id == k) := by
  induction students generalizing m with
  | nil => simp
  | cons s ss ih =>
    simp only [List.foldl_cons, List.filter_cons, ih]
    by_cases h : s.room_id = k
    · simp [h]
    · have h2 : ¬ (k = s.room_id) := fun hk => h hk.symm
      simp [h, h2]

theorem buildStudentMap_eq_filter (students : List Student) (k : Int) :
    buildStudentMap students k = students.filter (fun s => s.room_id == k) := by
  simpa using buildStudentMap_step students (fun _ => []) k

theorem combine_rooms_eq (students : List Student) (rooms : List Room) :
    combine_rooms students rooms
      = rooms.map (fun r =>
          { r with students := students.filter (fun s => s.room_id == r.id) }) := by
  unfold combine_rooms
  simp only [buildStudentMap_eq_filter]
theorem jsonQuote_id : jsonQuote "id" = "\"id\"" := rfl

theorem jsonQuote_name : jsonQuote "name" = "\"name\"" := rfl

theorem jsonQuote_room_id : jsonQuote "room_id" = "\"room_id\"" := rfl

theorem jsonQuote_students : jsonQuote "students" = "\"students\"" := rfl

theorem json_dumps_items_eq (lvl : Nat) (vs : List PyVal) :
    json_dumps_items lvl vs = vs.map (fun v => jsonIndent lvl ++ json_dumps_at lvl v) := by
  induction vs with
  | nil => rfl
  | cons v rest ih => simp [json_dumps_items, ih]

theorem json_dumps_at_int (lvl : Nat) (i : Int) :
    json_dumps_at lvl (.pyInt i) = toString i := rfl

theorem json_dumps_at_str (lvl : Nat) (s : String) :
    json_dumps_at lvl (.pyStr s) = jsonQuote s := rfl

theorem spec_student_item (s : Student) :
    jsonIndent 3 ++ json_dumps_at 3 (Student.asdict s) = specStudentJson s := by
  simp [json_dumps_at, json_dumps_entries, joinSep, Student.asdict, specStudentJson,
    jsonIndent, jsonQuote_id, jsonQuote_name, jsonQuote_room_id, String.append_assoc,
    show ∀ x : String, "            " ++ ("\x7b\n" ++ x) = "            \x7b\n" ++ x
      from fun _ => rfl,
    show ∀ x : String,
        "            \x7b\n" ++ ("                \"id\": " ++ x)
          = "            \x7b\n                \"id\": " ++ x
      from fun _ => rfl,
    show ∀ x : String,
        ",\n" ++ ("                \"name\": " ++ x) = ",\n                \"name\": " ++ x
      from fun _ => rfl,
    show ∀ x : String,
        ",\n" ++ ("                \"room_id\": " ++ x) = ",\n                \"room_id\": " ++ x
      from fun _ => rfl]

theorem spec_students_array (ss : List Student) :
    json_dumps_at 2 (.pyList (ss.map Student.asdict)) = specStudentsArrayJson ss := by
  cases ss with
  | nil => rfl
  | cons s rest =>
    have hitems : json_dumps_items 3 ((s :: rest).map Student.asdict)
        = (s :: rest).map specStudentJson := by
      rw [json_dumps_items_eq, List.map_map]
      exact List.map_congr_left (fun a _ => spec_student_item a)
    have hstep : json_dumps_at 2 (.pyList ((s :: rest).map Student.asdict))
        = "[\n" ++ joinSep ",\n" (json_dumps_items 3 ((s :: rest).map Student.asdict))
            ++ "\n" ++ jsonIndent 2 ++ "]" := rfl
    rw [hstep, hitems, specStudentsArrayJson]
    simp [String.append_assoc,
      show jsonIndent 2 = "        " from rfl,
      show ∀ x : String, "\n" ++ ("        " ++ x) = "\n        " ++ x from fun _ => rfl]

theorem spec_room_item (r : Room) :
    jsonIndent 1 ++ json_dumps_at 1 (Room.asdict r) = specRoomJson r := by
  have hstep : json_dumps_at 1 (Room.asdict r)
      = "\x7b\n" ++ joinSep ",\n" (json_dumps_entries 2
          [("id", .pyInt r.id), ("name", .pyStr r.name),
            ("students", .pyList (r.students.map Student.asdict))])
          ++ "\n" ++ jsonIndent 1 ++ "\x7d" := rfl
  have hentries : json_dumps_entries 2
      [("id", .pyInt r.id), ("name", .pyStr r.name),
        ("students", .pyList (r.students.map Student.asdict))]
      = ["        \"id\": " ++ toString r.id,
          "        \"name\": " ++ jsonQuote r.name,
          "        \"students\": " ++ specStudentsArrayJson r.students] := by
    simp only [json_dumps_entries, json_dumps_at_int, json_dumps_at_str,
      spec_students_array, jsonQuote_id, jsonQuote_name, jsonQuote_students,
      show jsonIndent 2 = "        " from rfl, String.append_assoc,
      show ∀ x : String, "        " ++ ("\"id\"" ++ (": " ++ x)) = "        \"id\": " ++ x
        from fun _ => rfl,
      show ∀ x : String, "        " ++ ("\"name\"" ++ (": " ++ x)) = "        \"name\": " ++ x
        from fun _ => rfl,
      show ∀ x : String,
          "        " ++ ("\"students\"" ++ (": " ++ x)) = "        \"students\": " ++ x
        from fun _ => rfl]
  rw [hstep, hentries]
  simp [joinSep, specRoomJson, String.append_assoc,
    show jsonIndent 1 = "    " from rfl,
    show ∀ x : String, "    " ++ ("\x7b\n" ++ x) = "    \x7b\n" ++ x from fun _ => rfl,
    show ∀ x : String,
        "    \x7b\n" ++ ("        \"id\": " ++ x) = "    \x7b\n        \"id\": " ++ x
      from fun _ => rfl,
    show ∀ x : String,
        ",\n" ++ ("        \"name\": " ++ x) = ",\n        \"name\": " ++ x
      from fun _ => rfl,
    show ∀ x : String,
        ",\n" ++ ("        \"students\": " ++ x) = ",\n        \"students\": " ++ x
      from fun _ => rfl]

theorem listCompr_ok_mem {α β : Type} (f : α → Except PyErr β) :
    ∀ (l : List α) (res : List β), listCompr f l = .ok res → ∀ a ∈ l, ∃ b, f a = .ok b := by
  intro l
  induction l with
  | nil => intro res _ a ha; cases ha
  | cons x rest ih =>
    intro res h a ha
    cases hx : f x with
    | error e =>
      rw [listCompr, hx] at h
      simp [Bind.bind, Except.bind, Functor.map, Except.map] at h
    | ok b =>
      cases hrest : listCompr f rest with
      | error e =>
        rw [listCompr, hx, hrest] at h
        simp [Bind.bind, Except.bind, Functor.map, Except.map] at h
      | ok bs =>
        rcases List.mem_cons.mp ha with rfl | hmem
        · exact ⟨b, hx⟩
        · exact ih bs hrest a hmem

theorem listCompr_map_ok {α β γ : Type} (f : β → Except PyErr γ) (g : α → β)
    (h : α → γ) (hfg : ∀ a, f (g a) = .ok (h a)) (l : List α) :
    listCompr f (l.map g) = .ok (l.map h) := by
  induction l with
  | nil => rfl
  | cons a rest ih =>
    simp [listCompr, hfg, ih, Bind.bind, Except.bind, Functor.map, Except.map,
      pure, Except.pure]

theorem listCompr_map_congr {α β : Type} (f : α → Except PyErr β) (g : α → α)
    (h : ∀ a, f (g a) = f a) (l : List α) :
    listCompr f (l.map g) = listCompr f l := by
  induction l with
  | nil => rfl
  | cons a rest ih => simp [listCompr, h, ih]

theorem jsonStudentOfRecord_ok_keys (r : PyVal) (st : DynStudent)
    (h : jsonStudentOfRecord r = .ok st) :
    (∃ x, pySubscript r "id" = .ok x)
      ∧ (∃ x, pySubscript r "name" = .ok x)
      ∧ (∃ x, pySubscript r "room" = .ok x) := by
  rw [jsonStudentOfRecord] at h
  cases hid : pySubscript r "id" with
  | error e => rw [hid] at h; simp [Bind.bind, Except.bind] at h
  | ok i =>
    rw [hid] at h
    cases hn : pySubscript r "name" with
    | error e => rw [hn] at h; simp [Bind.bind, Except.bind] at h
    | ok n =>
      rw [hn] at h
      cases hr : pySubscript r "room" with
      | error e => rw [hr] at h; simp [Bind.bind, Except.bind] at h
      | ok ro => exact ⟨⟨i, rfl⟩, ⟨n, rfl⟩, ⟨ro, rfl⟩⟩

theorem jsonRoomOfRecord_ok_keys (r : PyVal) (rm : DynRoom)
    (h : jsonRoomOfRecord r = .ok rm) :
    (∃ x, pySubscript r "id" = .ok x) ∧ (∃ x, pySubscript r "name" = .ok x) := by
  rw [jsonRoomOfRecord] at h
  cases hid : pySubscript r "id" with
  | error e => rw [hid] at h; simp [Bind.bind, Except.bind] at h
  | ok i =>
    rw [hid] at h
    cases hn : pySubscript r "name" with
    | error e => rw [hn] at h; simp [Bind.bind, Except.bind] at h
    | ok n => exact ⟨⟨i, rfl⟩, ⟨n, rfl⟩⟩

/-- C1: for every student sequence S and room sequence R, combine_rooms
attaches to each room of R exactly the students of S whose room identifier
equals that room's identifier, in the relative order they had in S (the
output is R, in order, with each room's students the order-preserving
filter of S by its identifier). -/
theorem combine_rooms_groups_exactly_and_in_order
    (S : List Student) (R : List Room) :
    combine_rooms S R
      = R.map (fun r =>
          { r with students := S.filter (fun s => s.room_id == r.id) }) :=
  combine_rooms_eq S R

/-- C2: a room of R matched by no student of S still appears in the
combined result (which has one room per input room) and its students field
is the empty list. -/
theorem combine_rooms_keeps_unmatched_room
    (S : List Student) (R : List Room) (r : Room)
    (hr : r ∈ R) (hno : ∀ s ∈ S, s.room_id ≠ r.id) :
    (combine_rooms S R).length = R.length
      ∧ { r with students := [] } ∈ combine_rooms S R := by
  rw [combine_rooms_eq]
  constructor
  · exact List.length_map _ _
  · apply List.mem_map.mpr
    refine ⟨r, hr, ?_⟩
    have hfil : S.filter (fun s => s.room_id == r.id) = [] := by
      apply List.filter_eq_nil_iff.mpr
      intro a ha
      simpa using hno a ha
    rw [hfil]

theorem combine_rooms_keeps_unmatched_room_witness :
    (combine_rooms [Student.mk 1 "Ann" 10] [Room.mk 30 "Gamma" []]).length
        = [Room.mk 30 "Gamma" []].length
      ∧ { Room.mk 30 "Gamma" [] with students := ([] : List Student) }
          ∈ combine_rooms [Student.mk 1 "Ann" 10] [Room.mk 30 "Gamma" []] :=
  combine_rooms_keeps_unmatched_room _ _ _ (by decide) (by decide)

/-- C3: the combine step always succeeds on well-typed input (one output
room per input room), and a student whose room identifier matches no room
of R is attached to no output room, with no error or report. -/
theorem combine_rooms_drops_unmatched_students
    (S : List Student) (R : List Room) (s : Student)
    (hno : ∀ r ∈ R, r.id ≠ s.room_id) :
    (combine_rooms S R).length = R.length
      ∧ ∀ room ∈ combine_rooms S R, s ∉ room.students := by
  rw [combine_rooms_eq]
  refine ⟨List.length_map _ _, ?_⟩
  intro room hroom hmem
  rcases List.mem_map.mp hroom with ⟨r, hrR, rfl⟩
  simp only at hmem
  have hpred := (List.mem_filter.mp hmem).2
  have heq : s.room_id = r.id := by simpa using hpred
  exact hno r hrR heq.symm

theorem combine_rooms_drops_unmatched_students_witness :
    (combine_rooms [Student.mk 1 "Ann" 99] [Room.mk 10 "Alpha" []]).length
        = [Room.mk 10 "Alpha" []].length
      ∧ ∀ room ∈ combine_rooms [Student.mk 1 "Ann" 99] [Room.mk 10 "Alpha" []],
          Student.mk 1 "Ann" 99 ∉ room.students :=
  combine_rooms_drops_unmatched_students _ _ _ (by decide)

/-- C4 counterexample: a student record whose required id field has the
wrong type (a string instead of an integer) is loaded successfully, with
the string stored as the id, instead of failing with a field error as the
claim demands. -/
theorem jsonLoadStudents_wrong_type_accepted :
    jsonLoadStudents (.pyList [.pyDict
        [("id", .pyStr "not-an-int"), ("name", .pyStr "Ann"), ("room", .pyInt 1)]])
      = .ok [DynStudent.mk (.pyStr "not-an-int") (.pyStr "Ann") (.pyInt 1)] := rfl

/-- C4 amended: a student record missing one of the required keys id,
name, room (or a room record missing id or name) makes the JSON load fail
with the KeyError that the subscript raises, but no field type is ever
checked: whatever values sit under the required keys are accepted and
stored as given, and the load succeeds. -/
theorem json_load_requires_keys_not_types :
    (∀ (recs : List PyVal) (res : List DynStudent),
        listCompr jsonStudentOfRecord recs = .ok res →
          ∀ r ∈ recs, (∃ x, pySubscript r "id" = .ok x)
            ∧ (∃ x, pySubscript r "name" = .ok x)
            ∧ (∃ x, pySubscript r "room" = .ok x))
      ∧ (∀ (recs : List PyVal) (res : List DynRoom),
          listCompr jsonRoomOfRecord recs = .ok res →
            ∀ r ∈ recs, (∃ x, pySubscript r "id" = .ok x)
              ∧ (∃ x, pySubscript r "name" = .ok x))
      ∧ (∀ i n ro : PyVal,
          jsonStudentOfRecord (.pyDict [("id", i), ("name", n), ("room", ro)])
            = .ok (DynStudent.mk i n ro))
      ∧ (∀ i n : PyVal,
          jsonRoomOfRecord (.pyDict [("id", i), ("name", n)])
            = .ok (DynRoom.mk i n [])) := by
  refine ⟨?_, ?_, fun i n ro => rfl, fun i n => rfl⟩
  · intro recs res h r hr
    obtain ⟨st, hst⟩ := listCompr_ok_mem jsonStudentOfRecord recs res h r hr
    exact jsonStudentOfRecord_ok_keys r st hst
  · intro recs res h r hr
    obtain ⟨rm, hrm⟩ := listCompr_ok_mem jsonRoomOfRecord recs res h r hr
    exact jsonRoomOfRecord_ok_keys r rm hrm

theorem json_load_requires_keys_not_types_witness :
    (∃ x, pySubscript (.pyDict
        [("id", .pyInt 5), ("name", .pyStr "Ann"), ("room", .pyInt 2)]) "id" = .ok x)
      ∧ (∃ x, pySubscript (.pyDict
          [("id", .pyInt 5), ("name", .pyStr "Ann"), ("room", .pyInt 2)]) "name" = .ok x)
      ∧ (∃ x, pySubscript (.pyDict
          [("id", .pyInt 5), ("name", .pyStr "Ann"), ("room", .pyInt 2)]) "room" = .ok x) :=
  json_load_requires_keys_not_types.1
    [.pyDict [("id", .pyInt 5), ("name", .pyStr "Ann"), ("room", .pyInt 2)]]
    [DynStudent.mk (.pyInt 5) (.pyStr "Ann") (.pyInt 2)]
    rfl _ (List.mem_singleton.mpr rfl)

set_option maxRecDepth 100000 in
/-- C5 counterexample: serializing a combined room list holding one student
and re-parsing the text with the JSON loader (json.load followed by the
room extraction) yields the room with an empty student list, so the
original student data is not recovered and round-trip identity fails. -/
theorem json_round_trip_loses_student_data :
    jsonRoomsRoundTrip [Room.mk 1 "Alpha" [Student.mk 2 "Ann" 1]]
        = .ok [DynRoom.mk (.pyInt 1) (.pyStr "Alpha") []]
      ∧ (Room.mk 1 "Alpha" [Student.mk 2 "Ann" 1]).students ≠ [] :=
  ⟨rfl, by decide⟩

/-- C5 amended: re-parsing the serialized combined rooms with the JSON room
loader recovers each room's id and name, in order, but every re-parsed
room carries an empty student list; and a serialized student object cannot
be re-parsed by the student extraction at all, because the serializer
writes the key room_id where the loader demands the key room, raising
KeyError. -/
theorem json_round_trip_recovers_rooms_only (rooms : List Room) :
    jsonLoadRooms (.pyList (rooms.map Room.asdict))
        = .ok (rooms.map (fun r => DynRoom.mk (.pyInt r.id) (.pyStr r.name) []))
      ∧ ∀ s : Student,
          jsonStudentOfRecord (Student.asdict s) = .error (.keyError "room") := by
  constructor
  · show listCompr jsonRoomOfRecord (rooms.map Room.asdict) = _
    exact listCompr_map_ok jsonRoomOfRecord Room.asdict
      (fun r => DynRoom.mk (.pyInt r.id) (.pyStr r.name) []) (fun r => rfl) rooms
  · intro s; rfl

/-- C6: a malformed XML source makes XmlDataLoader.load fail with the
ValueError whose message names the offending file path: the students path
when the students source is malformed, and the rooms path when the
students source parses and the rooms source is malformed. -/
theorem xml_load_parse_error_names_offending_path
    (students_path rooms_path : String) (rsrc ssrc : XmlSource)
    (sts : List XStudent) (hok : parse_students ssrc students_path = .ok sts) :
    XmlDataLoader.load .malformed rsrc students_path rooms_path
        = .error (.valueError ("Error parsing XML file: " ++ students_path))
      ∧ XmlDataLoader.load ssrc .malformed students_path rooms_path
        = .error (.valueError ("Error parsing XML file: " ++ rooms_path)) := by
  constructor
  · rfl
  · rw [XmlDataLoader.load, hok]
    rfl

theorem xml_load_parse_error_names_offending_path_witness :
    XmlDataLoader.load .malformed .malformed "students.xml" "rooms.xml"
        = .error (.valueError ("Error parsing XML file: " ++ "students.xml"))
      ∧ XmlDataLoader.load (.wellFormed (.mk "students" none [])) .malformed
          "students.xml" "rooms.xml"
        = .error (.valueError ("Error parsing XML file: " ++ "rooms.xml")) :=
  xml_load_parse_error_names_offending_path "students.xml" "rooms.xml"
    .malformed (.wellFormed (.mk "students" none [])) [] rfl

/-- C7: the JSON serializer's output is exactly the shape the spec fixes:
an array with one object per room in input order, each with exactly the
keys id, name, students in that order, the students array holding objects
with exactly the keys id, name, room_id in attached order, pretty printed
with 4-space indentation. -/
theorem jsonSerializer_output_matches_spec (rooms : List Room) :
    JsonDataSerializer.serialize rooms = specJsonOutput rooms := by
  cases rooms with
  | nil => rfl
  | cons r rest =>
    have hitems : json_dumps_items 1 ((r :: rest).map Room.asdict)
        = (r :: rest).map specRoomJson := by
      rw [json_dumps_items_eq, List.map_map]
      exact List.map_congr_left (fun a _ => spec_room_item a)
    have hstep : JsonDataSerializer.serialize (r :: rest)
        = "[\n" ++ joinSep ",\n" (json_dumps_items 1 ((r :: rest).map Room.asdict))
            ++ "\n" ++ jsonIndent 0 ++ "]" := rfl
    rw [hstep, hitems, specJsonOutput]
    simp [String.append_assoc, show jsonIndent 0 = "" from rfl]

/-- C8: both serializers are pure functions of the combined room list (the
Python methods read no state other than their argument and build fresh
structures each call), so a second call on the same data returns the
byte-identical string; totality of the embedded functions reflects that
serialization of a well-formed room list never raises. -/
theorem serializers_pure_idempotent_total (rooms : List Room) :
    JsonDataSerializer.serialize rooms = JsonDataSerializer.serialize rooms
      ∧ XmlDataSerializer.serialize rooms = XmlDataSerializer.serialize rooms :=
  ⟨rfl, rfl⟩

/-- C9: two rooms of R with equal identifiers both appear in the combined
output, each carrying the identical, full group of matching students (the
group is shared, not split). -/
theorem combine_rooms_duplicate_rooms_share_group
    (S : List Student) (R : List Room) (r1 r2 : Room)
    (h1 : r1 ∈ R) (h2 : r2 ∈ R) (heq : r1.id = r2.id) :
    { r1 with students := S.filter (fun s => s.room_id == r1.id) } ∈ combine_rooms S R
      ∧ { r2 with students := S.filter (fun s => s.room_id == r1.id) }
          ∈ combine_rooms S R := by
  rw [combine_rooms_eq]
  constructor
  · exact List.mem_map.mpr ⟨r1, h1, rfl⟩
  · exact List.mem_map.mpr ⟨r2, h2, by rw [heq]⟩

theorem combine_rooms_duplicate_rooms_share_group_witness :
    { Room.mk 10 "Alpha" [] with
        students := [Student.mk 1 "Ann" 10, Student.mk 2 "Bo" 10].filter
          (fun s => s.room_id == (Room.mk 10 "Alpha" []).id) }
        ∈ combine_rooms [Student.mk 1 "Ann" 10, Student.mk 2 "Bo" 10]
            [Room.mk 10 "Alpha" [], Room.mk 10 "Beta" []]
      ∧ { Room.mk 10 "Beta" [] with
          students := [Student.mk 1 "Ann" 10, Student.mk 2 "Bo" 10].filter
            (fun s => s.room_id == (Room.mk 10 "Alpha" []).id) }
          ∈ combine_rooms [Student.mk 1 "Ann" 10, Student.mk 2 "Bo" 10]
              [Room.mk 10 "Alpha" [], Room.mk 10 "Beta" []] :=
  combine_rooms_duplicate_rooms_share_group _ _ _ _
    (by decide) (by decide) (by decide)

/-- C10: the XML loader never reads the tags of the root's direct
children: rewriting every child tag changes neither parse result, an
individual element parses identically under any tag, and a sample element
tagged neither Student nor Room, carrying id, name and room children, is
loaded as a student record. -/
theorem xml_loader_ignores_child_tags
    (f : String → String) (root : XmlElem) (p : String) :
    parse_students (.wellFormed (retagChildren f root)) p
        = parse_students (.wellFormed root) p
      ∧ parse_rooms (.wellFormed (retagChildren f root)) p
        = parse_rooms (.wellFormed root) p
      ∧ (∀ (t1 t2 : String) (x : Option String) (cs : List XmlElem),
          xmlStudentOfElem (.mk t1 x cs) = xmlStudentOfElem (.mk t2 x cs)
            ∧ xmlRoomOfElem (.mk t1 x cs) = xmlRoomOfElem (.mk t2 x cs))
      ∧ parse_students (.wellFormed (.mk "data" none
            [.mk "Whatever" none [.mk "id" (some "7") [], .mk "name" (some "Ann") [],
              .mk "room" (some "3") []]])) p
        = .ok [XStudent.mk 7 (some "Ann") 3] := by
  refine ⟨?_, ?_, fun t1 t2 x cs => ⟨rfl, rfl⟩, by rfl⟩
  · show listCompr xmlStudentOfElem (retagChildren f root).children
        = listCompr xmlStudentOfElem root.children
    have hchildren : (retagChildren f root).children
        = root.children.map (fun c => .mk (f c.tag) c.text c.children) := rfl
    rw [hchildren]
    exact listCompr_map_congr xmlStudentOfElem _
      (fun c => by cases c with | mk t x cs => rfl) root.children
  · show listCompr xmlRoomOfElem (retagChildren f root).children
        = listCompr xmlRoomOfElem root.children
    have hchildren : (retagChildren f root).children
        = root.children.map (fun c => .mk (f c.tag) c.text c.children) := rfl
    rw [hchildren]
    exact listCompr_map_congr xmlRoomOfElem _
      (fun c => by cases c with | mk t x cs => rfl) root.children
